import Mathlib

/-!
Shallow embedding of `earthfile2llb/listener.go` (the jmn/earthly
semantic-action listener) and proofs of the specification claims.

The listener walks an Earthfile parse tree.  The tree-walk driver invokes
enter/exit callbacks; the listener keeps mutable state (current target,
found flag, push-only flag, WITH DOCKER block descriptor, sticky error)
and issues calls to the external graph builder (`Converter`).

External collaborators (variable expansion, platform parsing, artifact
parsing, duration/int parsing, JSON array decoding) are modelled as an
explicit record of pure functions `Ext`, exactly where the Go code calls
out to them.  The builder (`Converter`) methods are modelled as a call
trace appended to the state; this layer treats them as out of scope and
infallible, matching the spec's scoping of the graph builder.
-/

namespace Earthly

/-- Kinds of flags registered on a Go `flag.FlagSet` by the listener:
boolean flags, string flags, repeated-string flags (`StringSliceFlag`),
`time.Duration` flags and `int` flags. -/
inductive FKind where
  | fbool
  | fstr
  | fslice
  | fdur
  | fint
deriving DecidableEq

/-- One registered flag: its name and kind. -/
structure FlagDef where
  fname : String
  fkind : FKind
deriving DecidableEq

/-- Errors produced by Go `flag.FlagSet.Parse` (ContinueOnError mode). -/
inductive FlagErr where
  | badSyntax (arg : String)
  | unknownFlag (name : String)
  | needsValue (name : String)
  | badValue (name value : String)
  | helpRequested
deriving DecidableEq

/-- The result of a successful flag parse: most-recent-first assignment
lists per flag kind, plus the positional residue (`fs.Args()`). -/
structure FlagAcc where
  bVals : List (String × Bool) := []
  sVals : List (String × String) := []
  slVals : List (String × List String) := []
  dVals : List (String × Int) := []
  iVals : List (String × Int) := []
  positionals : List String := []
deriving DecidableEq

/-- The empty accumulator (all flags at their zero defaults). -/
def FlagAcc.init : FlagAcc := {}

/-- Record a boolean flag assignment (later assignments shadow earlier). -/
def setB (acc : FlagAcc) (name : String) (v : Bool) : FlagAcc :=
  { acc with bVals := (name, v) :: acc.bVals }

/-- Record a string flag assignment. -/
def setS (acc : FlagAcc) (name : String) (v : String) : FlagAcc :=
  { acc with sVals := (name, v) :: acc.sVals }

/-- Append to a repeated-string flag (`StringSliceFlag.Set`). -/
def addSl (acc : FlagAcc) (name : String) (v : String) : FlagAcc :=
  { acc with slVals := (name, ((acc.slVals.lookup name).getD []) ++ [v]) :: acc.slVals }

/-- Record a duration flag assignment (nanoseconds). -/
def setD (acc : FlagAcc) (name : String) (v : Int) : FlagAcc :=
  { acc with dVals := (name, v) :: acc.dVals }

/-- Record an int flag assignment. -/
def setI (acc : FlagAcc) (name : String) (v : Int) : FlagAcc :=
  { acc with iVals := (name, v) :: acc.iVals }

/-- Read a boolean flag (Go zero default `false`). -/
def getB (acc : FlagAcc) (name : String) : Bool :=
  (acc.bVals.lookup name).getD false

/-- Read a string flag (Go zero default `""`). -/
def getS (acc : FlagAcc) (name : String) : String :=
  (acc.sVals.lookup name).getD ""

/-- Read a repeated-string flag (default empty). -/
def getSl (acc : FlagAcc) (name : String) : List String :=
  (acc.slVals.lookup name).getD []

/-- Read a duration flag with its registered default. -/
def getDur (acc : FlagAcc) (name : String) (dflt : Int) : Int :=
  (acc.dVals.lookup name).getD dflt

/-- Read an int flag with its registered default. -/
def getInt (acc : FlagAcc) (name : String) (dflt : Int) : Int :=
  (acc.iVals.lookup name).getD dflt

/-- Go `strconv.ParseBool`. -/
def parseGoBool (s : String) : Option Bool :=
  if s = "1" ∨ s = "t" ∨ s = "T" ∨ s = "true" ∨ s = "TRUE" ∨ s = "True" then some true
  else if s = "0" ∨ s = "f" ∨ s = "F" ∨ s = "false" ∨ s = "FALSE" ∨ s = "False" then some false
  else none

/-- Split a flag token body at its first `=` (Go `flag.parseOne`'s
name/value split), returning the name and the inline value if any. -/
def splitEqChars : List Char → (List Char × Option (List Char))
  | [] => ([], none)
  | '=' :: rest => ([], some rest)
  | c :: rest =>
    let (a, b) := splitEqChars rest
    (c :: a, b)

/-- String version of `splitEqChars`. -/
def splitEqS (s : String) : String × Option String :=
  let (a, b) := splitEqChars s.data
  (String.mk a, b.map String.mk)

/-- External pure collaborators of the listener, consumed with known
contracts: the converter's variable expansion, `platforms.Parse`,
`domain.ParseArtifact` (returning the artifact's `String()` form on
success), `time.ParseDuration`, `strconv` int parsing for flag values,
and `encoding/json` decoding of a string array. -/
structure Ext where
  expandArgsC : String → String
  parsePlatform : String → Option String
  parseArtifact : String → Option String
  parseDuration : String → Option Int
  parseIntF : String → Option Int
  parseJSONArr : String → Option (List String)

/-- Is this token a flag token for Go's parser?  Go stops flag parsing at
the first token with `len(s) < 2 || s[0] != '-'`. -/
def isFlagTok (s : String) : Bool :=
  decide (2 ≤ s.length) && (s.data.headD ' ' = '-')

/-- Process one flag token (Go `flag.parseOne` after the stop checks):
decode the name, find the flag, take the inline or following value.
Returns the updated accumulator and how many following tokens were
consumed as the flag's value (0 or 1). -/
def goParseFlag (ext : Ext) (defs : List FlagDef) (s : String)
    (rest : List String) (acc : FlagAcc) : Except FlagErr (FlagAcc × Nat) :=
  let numMinuses := if s.data.getD 1 ' ' = '-' then 2 else 1
  let nameRaw := String.mk (s.data.drop numMinuses)
  if nameRaw.length = 0 ∨ nameRaw.data.headD ' ' = '-' ∨ nameRaw.data.headD ' ' = '=' then
    .error (.badSyntax s)
  else
    let nv := splitEqS nameRaw
    match defs.find? (fun d => d.fname = nv.1) with
    | none =>
      if nv.1 = "help" ∨ nv.1 = "h" then .error .helpRequested
      else .error (.unknownFlag nv.1)
    | some d =>
      match d.fkind with
      | .fbool =>
        match nv.2 with
        | some v =>
          match parseGoBool v with
          | some b => .ok (setB acc nv.1 b, 0)
          | none => .error (.badValue nv.1 v)
        | none => .ok (setB acc nv.1 true, 0)
      | .fstr =>
        match nv.2 with
        | some v => .ok (setS acc nv.1 v, 0)
        | none =>
          match rest with
          | [] => .error (.needsValue nv.1)
          | v :: _ => .ok (setS acc nv.1 v, 1)
      | .fslice =>
        match nv.2 with
        | some v => .ok (addSl acc nv.1 v, 0)
        | none =>
          match rest with
          | [] => .error (.needsValue nv.1)
          | v :: _ => .ok (addSl acc nv.1 v, 1)
      | .fdur =>
        match nv.2 with
        | some v =>
          match ext.parseDuration v with
          | some n => .ok (setD acc nv.1 n, 0)
          | none => .error (.badValue nv.1 v)
        | none =>
          match rest with
          | [] => .error (.needsValue nv.1)
          | v :: _ =>
            match ext.parseDuration v with
            | some n => .ok (setD acc nv.1 n, 1)
            | none => .error (.badValue nv.1 v)
      | .fint =>
        match nv.2 with
        | some v =>
          match ext.parseIntF v with
          | some n => .ok (setI acc nv.1 n, 0)
          | none => .error (.badValue nv.1 v)
        | none =>
          match rest with
          | [] => .error (.needsValue nv.1)
          | v :: _ =>
            match ext.parseIntF v with
            | some n => .ok (setI acc nv.1 n, 1)
            | none => .error (.badValue nv.1 v)

/-- Go `flag.FlagSet.Parse` over a declared set of flags: processes
tokens left to right, stopping at the first non-flag token or at `--`;
unknown flags and malformed values are errors.  The Boolean argument is
true when the head token was already consumed as the preceding flag's
value and must be skipped. -/
def goParseAux (ext : Ext) (defs : List FlagDef) :
    List String → FlagAcc → Bool → Except FlagErr FlagAcc
  | [], acc, _ => .ok { acc with positionals := [] }
  | _ :: rest, acc, true => goParseAux ext defs rest acc false
  | s :: rest, acc, false =>
    if isFlagTok s = false then .ok { acc with positionals := s :: rest }
    else if s = "--" then .ok { acc with positionals := rest }
    else
      match goParseFlag ext defs s rest acc with
      | .error e => .error e
      | .ok pr => goParseAux ext defs rest pr.1 (pr.2 = 1)

/-- Parse a statement's raw token list against its declared flags. -/
def goParse (ext : Ext) (defs : List FlagDef) (args : List String) :
    Except FlagErr FlagAcc :=
  goParseAux ext defs args FlagAcc.init false

/-- Replace every (leftmost, non-overlapping) occurrence of `\+` by
`\\+` in a character list (Go `strings.ReplaceAll(str, "\\+", "\\\\+")`). -/
def escPlusChars : List Char → List Char
  | [] => []
  | '\\' :: '+' :: rest => '\\' :: '\\' :: '+' :: escPlusChars rest
  | c :: rest => c :: escPlusChars rest

/-- Replace every (leftmost, non-overlapping) occurrence of `\+` by `+`
in a character list (Go `strings.ReplaceAll(str, "\\+", "+")`). -/
def unescPlusChars : List Char → List Char
  | [] => []
  | '\\' :: '+' :: rest => '+' :: unescPlusChars rest
  | c :: rest => c :: unescPlusChars rest

/-- `escapeSlashPlus` from the source: protect `\+` as `\\+` before
variable substitution (known-limited double-escape behavior). -/
def escapeSlashPlus (str : String) : String :=
  String.mk (escPlusChars str.data)

/-- `unescapeSlashPlus` from the source: restore `\+` to a literal `+`. -/
def unescapeSlashPlus (str : String) : String :=
  String.mk (unescPlusChars str.data)

/-- `listener.expandArgs`: protect the reference marker, run the
converter's variable expansion, and either keep the protected form (for
values later re-parsed as target/artifact references) or restore the
literal marker. -/
def expandArgs (ext : Ext) (word : String) (keepPlusEscape : Bool) : String :=
  let ret := ext.expandArgsC (escapeSlashPlus word)
  if keepPlusEscape then ret else unescapeSlashPlus ret

/-- Go `strings.TrimSuffix(s, ":")` as used on a target header's text. -/
def trimColon (text : String) : String :=
  match text.data.getLast? with
  | some ':' => String.mk text.data.dropLast
  | _ => text

/-- Scanner for `replaceEscape`'s regular expression
`\\(\n|(\r\n))[\t ]*`, replacing each match with the empty string.  The
Boolean is true while inside the `[\t ]*` tail of a match. -/
def replaceEscapeChars : List Char → Bool → List Char
  | [], _ => []
  | '\\' :: '\r' :: '\n' :: rest, _ => replaceEscapeChars rest true
  | '\\' :: '\n' :: rest, _ => replaceEscapeChars rest true
  | c :: rest, true =>
    if c = '\t' ∨ c = ' ' then replaceEscapeChars rest true
    else c :: replaceEscapeChars rest false
  | c :: rest, false => c :: replaceEscapeChars rest false

/-- `replaceEscape` from the source: strip line continuations from a raw
statement word. -/
def replaceEscape (str : String) : String :=
  String.mk (replaceEscapeChars str.data false)

/-- Go `strings.Join(elems, " ")`. -/
def joinSpace : List String → String
  | [] => ""
  | [x] => x
  | x :: rest => x ++ " " ++ joinSpace rest

/-- `checkEnvVarName`'s regular expression `^[a-zA-Z_]+[a-zA-Z0-9_]*$`:
nonempty, first character ASCII alpha or underscore, remaining characters
ASCII alphanumeric or underscore. -/
def envVarNameOk (s : String) : Bool :=
  match s.data with
  | [] => false
  | c :: cs =>
    (c.isAlpha || c = '_') && cs.all (fun d => d.isAlpha || d.isDigit || d = '_')

/-- `parseLoad` from the source (`strings.SplitN(loadStr, "=", 2)`):
split `--load` values at the first `=` into (image name, target name);
a bare value is a target name with the image name inferred later. -/
def parseLoad (loadStr : String) : String × String :=
  match splitEqChars loadStr.data with
  | (_, none) => ("", loadStr)
  | (a, some b) => (String.mk a, String.mk b)

--
-- Data model: block descriptor, builder call trace, error taxonomy,
-- listener state.

/-- `DockerLoadOpt`: one `--load` directive of a WITH DOCKER block. -/
structure DockerLoadOpt where
  target : String
  imageName : String
  platform : Option String
  buildArgs : List String
deriving DecidableEq

/-- `DockerPullOpt`: one `--pull` directive of a WITH DOCKER block. -/
structure DockerPullOpt where
  imageName : String
  platform : Option String
deriving DecidableEq

/-- `WithDockerOpt`: the open compound-block descriptor, accumulated by
the WITH DOCKER opener and the single inner RUN. -/
structure WithDockerOpt where
  composeFiles : List String := []
  composeServices : List String := []
  loads : List DockerLoadOpt := []
  pulls : List DockerPullOpt := []
  mounts : List String := []
  secrets : List String := []
  withShell : Bool := false
  withEntrypoint : Bool := false
deriving DecidableEq

/-- One call to the external graph builder (`Converter`), with the
already-expanded arguments the listener passes, in source order. -/
inductive BCall where
  | fromI (img : String) (platform : Option String) (buildArgs : List String)
  | fromDockerfile (path dfPath dfTarget : String) (platform : Option String)
      (buildArgs : List String)
  | copyArtifact (src dest : String) (platform : Option String)
      (buildArgs : List String) (isDir keepTs keepOwn : Bool) (chown : String)
      (ifExists : Bool)
  | copyClassical (srcs : List String) (dest : String)
      (isDir keepTs keepOwn : Bool) (chown : String)
  | run (args mounts secrets : List String)
      (privileged withEntrypoint withDocker withShell push withSSH : Bool)
  | withDockerRun (args : List String) (opt : WithDockerOpt)
  | saveArtifact (saveFrom saveTo saveAsLocalTo : String)
      (keepTs keepOwn ifExists : Bool)
  | saveImage (names : List String) (push insecure cacheHint : Bool)
      (cacheFrom : List String)
  | build (target : String) (platform : Option String) (buildArgs : List String)
  | workdir (path : String)
  | user (u : String)
  | cmd (args : List String) (withShell : Bool)
  | entrypoint (args : List String) (withShell : Bool)
  | expose (ports : List String)
  | volume (vols : List String)
  | env (k v : String)
  | argC (k v : String) (global : Bool)
  | label (pairs : List (String × String))
  | gitClone (url branch dest : String) (keepTs : Bool)
  | healthcheck (isNone : Bool) (cmdArgs : List String)
      (interval timeout startPeriod retries : Int)
deriving DecidableEq

/-- The listener's latched error taxonomy, one constructor per distinct
error site in the source. -/
inductive IErr where
  | declaredTwice (target : String)
  | reservedTargetName
  | noMatchingEnd
  | pushViolation (text : String)
  | flagDecodeErr (stmtKind : String) (e : FlagErr)
  | fromAsNotSupported
  | fromInvalidArgCount
  | fromDockerfileInvalidArgCount
  | platformParseErr (p : String)
  | notEnoughCopyArgs
  | copyFromNotImplemented
  | copyMixed (srcs : List String)
  | copyBuildArgsClassical
  | notEnoughRunArgs
  | runPushInWithDocker
  | onlyOneRunInWithDocker
  | saveArtifactNoArgs
  | saveArtifactTooMany
  | saveArtifactInvalid
  | saveImagePushNoArgs
  | buildInvalidArgCount
  | workdirInvalidArgCount
  | userInvalidArgCount
  | exposeNoArgs
  | volumeNoArgs
  | noLabels
  | labelMismatch
  | gitCloneInvalidArgCount
  | dockerLoadObsolete
  | dockerPullObsolete
  | healthcheckNoArgs
  | healthcheckNoneExtraArgs
  | healthcheckCmdNoArgs
  | healthcheckExecFormUnsupported
  | healthcheckInvalid
  | nestedWithDocker
  | withDockerExtraArgs (args : List String)
  | endExtraArgs
  | endWithoutWithDocker
  | noRunInWithDocker
  | addNotSupported
  | stopsignalNotSupported
  | onbuildNotSupported
  | shellNotSupported
  | invalidCommand (text : String)
  | invalidEnvKey (k : String)
deriving DecidableEq

/-- The listener state (`struct listener`), plus a model-only trace of
the builder calls issued so far (`calls`). -/
structure Listener where
  executeTarget : String
  currentTarget : String
  targetFound : Bool
  pushOnlyAllowed : Bool
  envArgKey : String
  envArgValue : String
  labelKeys : List String
  labelValues : List String
  withDocker : Option WithDockerOpt
  withDockerRan : Bool
  execMode : Bool
  stmtWords : List String
  err : Option IErr
  calls : List BCall
deriving DecidableEq

/-- `newListener`: fresh state for one walk; the found flag starts true
exactly when the requested target is `base`. -/
def newListener (executeTarget : String) : Listener :=
  { executeTarget := executeTarget
    currentTarget := "base"
    targetFound := executeTarget = "base"
    pushOnlyAllowed := false
    envArgKey := ""
    envArgValue := ""
    labelKeys := []
    labelValues := []
    withDocker := none
    withDockerRan := false
    execMode := false
    stmtWords := []
    err := none
    calls := [] }

/-- `shouldSkip`: true when an error is latched or the current target is
not the requested execution target. -/
def shouldSkip (l : Listener) : Bool :=
  l.err.isSome || l.currentTarget ≠ l.executeTarget

/-- The walk's reported outcome: the latched error, a dedicated
target-not-found condition, or success (`listener.Err`). -/
inductive WalkResult where
  | ok
  | failed (e : IErr)
  | targetNotFound (t : String)
deriving DecidableEq

/-- `listener.Err()`: latched error first, then the not-found check. -/
def errResult (l : Listener) : WalkResult :=
  match l.err with
  | some e => .failed e
  | none => if l.targetFound = false then .targetNotFound l.executeTarget else .ok

/-- Resolve an (expanded) platform string: empty means unspecified, a
nonempty string goes through `platforms.Parse`. -/
def resolvePlatform (ext : Ext) (pstr : String) : Except IErr (Option String) :=
  if pstr = "" then .ok none
  else
    match ext.parsePlatform pstr with
    | some p => .ok (some p)
    | none => .error (.platformParseErr pstr)

/-- Parse a list of platform strings, failing on the first bad one
(the BUILD handler's loop). -/
def parsePlatforms (ext : Ext) : List String → Except IErr (List String)
  | [] => .ok []
  | p :: rest =>
    match ext.parsePlatform p with
    | none => .error (.platformParseErr p)
    | some pp =>
      match parsePlatforms ext rest with
      | .error e => .error e
      | .ok l => .ok (pp :: l)

--
-- Flag declarations, one list per statement handler, mirroring the
-- `flag.NewFlagSet` registrations in the source.

/-- FROM flags. -/
def fromFlags : List FlagDef :=
  [⟨"build-arg", .fslice⟩, ⟨"platform", .fstr⟩]

/-- FROM DOCKERFILE flags. -/
def fromDockerfileFlags : List FlagDef :=
  [⟨"build-arg", .fslice⟩, ⟨"platform", .fstr⟩, ⟨"target", .fstr⟩, ⟨"f", .fstr⟩]

/-- COPY flags. -/
def copyFlags : List FlagDef :=
  [⟨"from", .fstr⟩, ⟨"dir", .fbool⟩, ⟨"chown", .fstr⟩, ⟨"keep-ts", .fbool⟩,
   ⟨"keep-own", .fbool⟩, ⟨"if-exists", .fbool⟩, ⟨"platform", .fstr⟩,
   ⟨"build-arg", .fslice⟩]

/-- RUN flags. -/
def runFlags : List FlagDef :=
  [⟨"push", .fbool⟩, ⟨"privileged", .fbool⟩, ⟨"entrypoint", .fbool⟩,
   ⟨"with-docker", .fbool⟩, ⟨"ssh", .fbool⟩, ⟨"secret", .fslice⟩,
   ⟨"mount", .fslice⟩]

/-- SAVE ARTIFACT flags. -/
def saveArtifactFlags : List FlagDef :=
  [⟨"keep-ts", .fbool⟩, ⟨"keep-own", .fbool⟩, ⟨"if-exists", .fbool⟩]

/-- SAVE IMAGE flags. -/
def saveImageFlags : List FlagDef :=
  [⟨"push", .fbool⟩, ⟨"cache-hint", .fbool⟩, ⟨"insecure", .fbool⟩,
   ⟨"cache-from", .fslice⟩]

/-- BUILD flags. -/
def buildFlags : List FlagDef :=
  [⟨"platform", .fslice⟩, ⟨"build-arg", .fslice⟩]

/-- GIT CLONE flags. -/
def gitCloneFlags : List FlagDef :=
  [⟨"branch", .fstr⟩, ⟨"keep-ts", .fbool⟩]

/-- HEALTHCHECK flags. -/
def healthcheckFlags : List FlagDef :=
  [⟨"interval", .fdur⟩, ⟨"timeout", .fdur⟩, ⟨"start-period", .fdur⟩,
   ⟨"retries", .fint⟩]

/-- WITH DOCKER flags. -/
def withDockerFlags : List FlagDef :=
  [⟨"compose", .fslice⟩, ⟨"service", .fslice⟩, ⟨"load", .fslice⟩,
   ⟨"platform", .fstr⟩, ⟨"build-arg", .fslice⟩, ⟨"pull", .fslice⟩]

--
-- Statement handlers, one per listener callback, translated line by
-- line from the source.

/-- The tail of `EnterTargetHeader` after the duplicate-target logic:
skip check, reserved-name check, implicit `FROM +base`. -/
def headerRest (l : Listener) : Listener :=
  if shouldSkip l then l
  else if l.currentTarget = "base" ∨ l.currentTarget = "secrets" then
    { l with err := some .reservedTargetName }
  else { l with calls := l.calls ++ [.fromI "+base" none []] }

/-- `EnterTargetHeader`: set the current target, detect a duplicate
declaration of the requested target, then delegate to `headerRest`. -/
def enterTargetHeader (text : String) (l : Listener) : Listener :=
  if trimColon text = l.executeTarget then
    if l.targetFound then
      { l with currentTarget := trimColon text,
               err := some (.declaredTwice (trimColon text)) }
    else headerRest { l with currentTarget := trimColon text, targetFound := true }
  else headerRest { l with currentTarget := trimColon text }

/-- `EnterStmts`: reset push-only mode at the start of a target's
statement list. -/
def enterStmts (l : Listener) : Listener :=
  if shouldSkip l then l
  else { l with pushOnlyAllowed := false }

/-- `ExitStmts`: an open WITH DOCKER block at the end of the statement
list is an error. -/
def exitStmts (l : Listener) : Listener :=
  if shouldSkip l then l
  else if l.withDocker.isSome then { l with err := some .noMatchingEnd }
  else l

/-- `EnterStmt`: reset the per-statement scratch fields. -/
def enterStmt (l : Listener) : Listener :=
  if shouldSkip l then l
  else
    { l with stmtWords := [], envArgKey := "", envArgValue := "",
             labelKeys := [], labelValues := [], execMode := false }

/-- `ExitFromStmt`. -/
def exitFromStmt (ext : Ext) (text : String) (l : Listener) : Listener :=
  if shouldSkip l then l
  else if l.pushOnlyAllowed then { l with err := some (.pushViolation text) }
  else
    match goParse ext fromFlags l.stmtWords with
    | .error e => { l with err := some (.flagDecodeErr "FROM" e) }
    | .ok fr =>
      if fr.positionals.length ≠ 1 then
        if fr.positionals.length = 3 ∧ fr.positionals.getD 1 "" = "AS" then
          { l with err := some .fromAsNotSupported }
        else { l with err := some .fromInvalidArgCount }
      else
        let imageName := expandArgs ext (fr.positionals.getD 0 "") true
        match resolvePlatform ext (expandArgs ext (getS fr "platform") false) with
        | .error e => { l with err := some e }
        | .ok platform =>
          let buildArgs := (getSl fr "build-arg").map (fun ba => expandArgs ext ba true)
          { l with calls := l.calls ++ [.fromI imageName platform buildArgs] }

/-- `ExitFromDockerfileStmt`. -/
def exitFromDockerfileStmt (ext : Ext) (text : String) (l : Listener) : Listener :=
  if shouldSkip l then l
  else if l.pushOnlyAllowed then { l with err := some (.pushViolation text) }
  else
    match goParse ext fromDockerfileFlags l.stmtWords with
    | .error e => { l with err := some (.flagDecodeErr "FROM DOCKERFILE" e) }
    | .ok fr =>
      if fr.positionals.length ≠ 1 then
        { l with err := some .fromDockerfileInvalidArgCount }
      else
        let path0 := expandArgs ext (fr.positionals.getD 0 "") false
        let path :=
          if (ext.parseArtifact path0).isNone then
            expandArgs ext (fr.positionals.getD 0 "") false
          else path0
        let buildArgs := (getSl fr "build-arg").map (fun ba => expandArgs ext ba true)
        match resolvePlatform ext (expandArgs ext (getS fr "platform") false) with
        | .error e => { l with err := some e }
        | .ok platform =>
          let dfPath := expandArgs ext (getS fr "f") false
          let dfTarget := expandArgs ext (getS fr "target") false
          { l with calls :=
              l.calls ++ [.fromDockerfile path dfPath dfTarget platform buildArgs] }

/-- `ExitCopyStmt`. -/
def exitCopyStmt (ext : Ext) (text : String) (l : Listener) : Listener :=
  if shouldSkip l then l
  else if l.pushOnlyAllowed then { l with err := some (.pushViolation text) }
  else
    match goParse ext copyFlags l.stmtWords with
    | .error e => { l with err := some (.flagDecodeErr "COPY" e) }
    | .ok fr =>
      if fr.positionals.length < 2 then { l with err := some .notEnoughCopyArgs }
      else if getS fr "from" ≠ "" then { l with err := some .copyFromNotImplemented }
      else
        let srcs0 := fr.positionals.take (fr.positionals.length - 1)
        let dest := expandArgs ext (fr.positionals.getD (fr.positionals.length - 1) "") false
        let buildArgs := (getSl fr "build-arg").map (fun ba => expandArgs ext ba true)
        let chown := expandArgs ext (getS fr "chown") false
        match resolvePlatform ext (expandArgs ext (getS fr "platform") false) with
        | .error e => { l with err := some e }
        | .ok platform =>
          let classified := srcs0.map (fun src =>
            match ext.parseArtifact (expandArgs ext src true) with
            | some a => (a, true)
            | none => (expandArgs ext src false, false))
          let srcs := classified.map Prod.fst
          let allClassical := classified.all (fun p => p.2 = false)
          let allArtifacts := classified.all (fun p => p.2 = true)
          if allClassical = false ∧ allArtifacts = false then
            { l with err := some (.copyMixed srcs) }
          else if allArtifacts then
            { l with calls := l.calls ++ srcs.map (fun src =>
                .copyArtifact src dest platform buildArgs (getB fr "dir")
                  (getB fr "keep-ts") (getB fr "keep-own") chown
                  (getB fr "if-exists")) }
          else if buildArgs.length ≠ 0 then
            { l with err := some .copyBuildArgsClassical }
          else
            { l with calls := l.calls ++ [.copyClassical srcs dest (getB fr "dir")
                (getB fr "keep-ts") (getB fr "keep-own") chown] }

/-- `ExitRunStmt`. -/
def exitRunStmt (ext : Ext) (text : String) (l : Listener) : Listener :=
  if shouldSkip l then l
  else if l.stmtWords.length < 1 then { l with err := some .notEnoughRunArgs }
  else
    match goParse ext runFlags l.stmtWords with
    | .error e => { l with err := some (.flagDecodeErr "RUN" e) }
    | .ok fr =>
      let withShell := !l.execMode
      let pushFlag := getB fr "push"
      let withDockerB := getB fr "with-docker"
      let privileged := getB fr "privileged" || withDockerB
      if pushFlag = false ∧ l.pushOnlyAllowed then
        { l with err := some (.pushViolation text) }
      else
        let secrets := (getSl fr "secret").map (fun s => expandArgs ext s true)
        let mounts := (getSl fr "mount").map (fun m => expandArgs ext m false)
        match l.withDocker with
        | none =>
          let l1 := { l with calls := l.calls ++ [.run fr.positionals mounts secrets
              privileged (getB fr "entrypoint") withDockerB withShell pushFlag
              (getB fr "ssh")] }
          if pushFlag then { l1 with pushOnlyAllowed := true } else l1
        | some wd =>
          if pushFlag then { l with err := some .runPushInWithDocker }
          else if l.withDockerRan then { l with err := some .onlyOneRunInWithDocker }
          else
            let wd1 := { wd with mounts := mounts, secrets := secrets,
                                 withShell := withShell,
                                 withEntrypoint := getB fr "entrypoint" }
            { l with withDockerRan := true, withDocker := some wd1,
                     calls := l.calls ++ [.withDockerRun fr.positionals wd1] }

/-- `ExitSaveArtifact`. -/
def exitSaveArtifact (ext : Ext) (text : String) (l : Listener) : Listener :=
  if shouldSkip l then l
  else if l.pushOnlyAllowed then { l with err := some (.pushViolation text) }
  else
    match goParse ext saveArtifactFlags l.stmtWords with
    | .error e => { l with err := some (.flagDecodeErr "SAVE" e) }
    | .ok fr =>
      let n := fr.positionals.length
      if n = 0 then { l with err := some .saveArtifactNoArgs }
      else if 5 < n then { l with err := some .saveArtifactTooMany }
      else
        match (if 4 ≤ n then
                 if joinSpace ((fr.positionals.drop (n - 3)).take 2) = "AS LOCAL" then
                   Except.ok (fr.positionals.getD (n - 1) "",
                     if n = 5 then fr.positionals.getD 1 "" else "./")
                 else Except.error IErr.saveArtifactInvalid
               else if n = 2 then Except.ok ("", fr.positionals.getD 1 "")
               else if n = 3 then Except.error IErr.saveArtifactInvalid
               else Except.ok ("", "./")) with
        | .error e => { l with err := some e }
        | .ok dests =>
          let saveFrom := expandArgs ext (fr.positionals.getD 0 "") false
          let saveTo := expandArgs ext dests.2 false
          let saveAsLocalTo := expandArgs ext dests.1 false
          { l with calls := l.calls ++ [.saveArtifact saveFrom saveTo saveAsLocalTo
              (getB fr "keep-ts") (getB fr "keep-own") (getB fr "if-exists")] }

/-- `ExitSaveImage`. -/
def exitSaveImage (ext : Ext) (text : String) (l : Listener) : Listener :=
  if shouldSkip l then l
  else
    match goParse ext saveImageFlags l.stmtWords with
    | .error e => { l with err := some (.flagDecodeErr "SAVE IMAGE" e) }
    | .ok fr =>
      let cacheFrom := (getSl fr "cache-from").map (fun cf => expandArgs ext cf false)
      let pushFlag := getB fr "push"
      if pushFlag = false ∧ l.pushOnlyAllowed then
        { l with err := some (.pushViolation text) }
      else if pushFlag ∧ fr.positionals.length = 0 then
        { l with err := some .saveImagePushNoArgs }
      else
        let imageNames := fr.positionals.map (fun img => expandArgs ext img false)
        if imageNames.length = 0 ∧ getB fr "cache-hint" = false ∧ cacheFrom.length = 0 then
          l
        else
          let l1 := { l with calls := l.calls ++ [.saveImage imageNames pushFlag
              (getB fr "insecure") (getB fr "cache-hint") cacheFrom] }
          if pushFlag then { l1 with pushOnlyAllowed := true } else l1

/-- `ExitBuildStmt`. -/
def exitBuildStmt (ext : Ext) (text : String) (l : Listener) : Listener :=
  if shouldSkip l then l
  else if l.pushOnlyAllowed then { l with err := some (.pushViolation text) }
  else
    match goParse ext buildFlags l.stmtWords with
    | .error e => { l with err := some (.flagDecodeErr "BUILD" e) }
    | .ok fr =>
      if fr.positionals.length ≠ 1 then { l with err := some .buildInvalidArgCount }
      else
        let fullTargetName := expandArgs ext (fr.positionals.getD 0 "") true
        match parsePlatforms ext (getSl fr "platform") with
        | .error e => { l with err := some e }
        | .ok ps =>
          let buildArgs := (getSl fr "build-arg").map (fun ba => expandArgs ext ba true)
          let platformsSlice : List (Option String) :=
            if ps.length = 0 then [none] else ps.map some
          { l with calls := l.calls ++ platformsSlice.map (fun pl =>
              .build fullTargetName pl buildArgs) }

/-- `ExitWorkdirStmt`. -/
def exitWorkdirStmt (ext : Ext) (text : String) (l : Listener) : Listener :=
  if shouldSkip l then l
  else if l.pushOnlyAllowed then { l with err := some (.pushViolation text) }
  else if l.stmtWords.length ≠ 1 then { l with err := some .workdirInvalidArgCount }
  else { l with calls := l.calls ++ [.workdir (expandArgs ext (l.stmtWords.getD 0 "") false)] }

/-- `ExitUserStmt`. -/
def exitUserStmt (ext : Ext) (text : String) (l : Listener) : Listener :=
  if shouldSkip l then l
  else if l.pushOnlyAllowed then { l with err := some (.pushViolation text) }
  else if l.stmtWords.length ≠ 1 then { l with err := some .userInvalidArgCount }
  else { l with calls := l.calls ++ [.user (expandArgs ext (l.stmtWords.getD 0 "") false)] }

/-- `ExitCmdStmt`. -/
def exitCmdStmt (ext : Ext) (text : String) (l : Listener) : Listener :=
  if shouldSkip l then l
  else if l.pushOnlyAllowed then { l with err := some (.pushViolation text) }
  else
    let withShell := !l.execMode
    let cmdArgs :=
      if withShell then l.stmtWords
      else l.stmtWords.map (fun a => expandArgs ext a false)
    { l with calls := l.calls ++ [.cmd cmdArgs withShell] }

/-- `ExitEntrypointStmt`. -/
def exitEntrypointStmt (ext : Ext) (text : String) (l : Listener) : Listener :=
  if shouldSkip l then l
  else if l.pushOnlyAllowed then { l with err := some (.pushViolation text) }
  else
    let withShell := !l.execMode
    let entArgs :=
      if withShell then l.stmtWords
      else l.stmtWords.map (fun a => expandArgs ext a false)
    { l with calls := l.calls ++ [.entrypoint entArgs withShell] }

/-- `ExitExposeStmt`. -/
def exitExposeStmt (ext : Ext) (text : String) (l : Listener) : Listener :=
  if shouldSkip l then l
  else if l.pushOnlyAllowed then { l with err := some (.pushViolation text) }
  else if l.stmtWords.length = 0 then { l with err := some .exposeNoArgs }
  else { l with calls := l.calls ++ [.expose (l.stmtWords.map (fun p => expandArgs ext p false))] }

/-- `ExitVolumeStmt`. -/
def exitVolumeStmt (ext : Ext) (text : String) (l : Listener) : Listener :=
  if shouldSkip l then l
  else if l.pushOnlyAllowed then { l with err := some (.pushViolation text) }
  else if l.stmtWords.length = 0 then { l with err := some .volumeNoArgs }
  else { l with calls := l.calls ++ [.volume (l.stmtWords.map (fun v => expandArgs ext v false))] }

/-- `ExitEnvStmt`: the key is never expanded, the value is
literal-expanded. -/
def exitEnvStmt (ext : Ext) (text : String) (l : Listener) : Listener :=
  if shouldSkip l then l
  else if l.pushOnlyAllowed then { l with err := some (.pushViolation text) }
  else { l with calls := l.calls ++ [.env l.envArgKey (expandArgs ext l.envArgValue false)] }

/-- `ExitArgStmt`: the key is never expanded, the value is
reference-preserving expanded; args in the base target are global. -/
def exitArgStmt (ext : Ext) (text : String) (l : Listener) : Listener :=
  if shouldSkip l then l
  else if l.pushOnlyAllowed then { l with err := some (.pushViolation text) }
  else { l with calls := l.calls ++ [.argC l.envArgKey (expandArgs ext l.envArgValue true)
      (l.currentTarget = "base")] }

/-- `ExitLabelStmt`. -/
def exitLabelStmt (ext : Ext) (text : String) (l : Listener) : Listener :=
  if shouldSkip l then l
  else if l.pushOnlyAllowed then { l with err := some (.pushViolation text) }
  else if l.labelKeys.length = 0 then { l with err := some .noLabels }
  else if l.labelKeys.length ≠ l.labelValues.length then { l with err := some .labelMismatch }
  else
    let pairs := (l.labelKeys.zip l.labelValues).map
      (fun kv => (expandArgs ext kv.1 false, expandArgs ext kv.2 false))
    { l with calls := l.calls ++ [.label pairs] }

/-- `ExitGitCloneStmt`. -/
def exitGitCloneStmt (ext : Ext) (text : String) (l : Listener) : Listener :=
  if shouldSkip l then l
  else if l.pushOnlyAllowed then { l with err := some (.pushViolation text) }
  else
    match goParse ext gitCloneFlags l.stmtWords with
    | .error e => { l with err := some (.flagDecodeErr "GIT CLONE" e) }
    | .ok fr =>
      if fr.positionals.length ≠ 2 then { l with err := some .gitCloneInvalidArgCount }
      else
        let gitURL := expandArgs ext (fr.positionals.getD 0 "") false
        let gitCloneDest := expandArgs ext (fr.positionals.getD 1 "") false
        let branch := expandArgs ext (getS fr "branch") false
        { l with calls := l.calls ++ [.gitClone gitURL branch gitCloneDest (getB fr "keep-ts")] }

/-- `ExitDockerLoadStmt`: obsolete command. -/
def exitDockerLoadStmt (l : Listener) : Listener :=
  if shouldSkip l then l else { l with err := some .dockerLoadObsolete }

/-- `ExitDockerPullStmt`: obsolete command. -/
def exitDockerPullStmt (l : Listener) : Listener :=
  if shouldSkip l then l else { l with err := some .dockerPullObsolete }

/-- `ExitHealthcheckStmt`. -/
def exitHealthcheckStmt (ext : Ext) (text : String) (l : Listener) : Listener :=
  if shouldSkip l then l
  else if l.pushOnlyAllowed then { l with err := some (.pushViolation text) }
  else
    match goParse ext healthcheckFlags l.stmtWords with
    | .error e => { l with err := some (.flagDecodeErr "HEALTHCHECK" e) }
    | .ok fr =>
      let interval := getDur fr "interval" 30000000000
      let timeout := getDur fr "timeout" 30000000000
      let startPeriod := getDur fr "start-period" 0
      let retries := getInt fr "retries" 3
      if fr.positionals.length = 0 then { l with err := some .healthcheckNoArgs }
      else if fr.positionals.getD 0 "" = "NONE" then
        if fr.positionals.length ≠ 1 then { l with err := some .healthcheckNoneExtraArgs }
        else { l with calls := l.calls ++ [.healthcheck true [] interval timeout startPeriod retries] }
      else if fr.positionals.getD 0 "" = "CMD" then
        if fr.positionals.length = 1 then { l with err := some .healthcheckCmdNoArgs }
        else
          let cmdArgs := (fr.positionals.drop 1).map (fun a => expandArgs ext a false)
          { l with calls := l.calls ++ [.healthcheck false cmdArgs interval timeout startPeriod retries] }
      else if (fr.positionals.getD 0 "").data.headD ' ' = '[' then
        { l with err := some .healthcheckExecFormUnsupported }
      else { l with err := some .healthcheckInvalid }

/-- `ExitWithDockerStmt`: open a compound block. -/
def exitWithDockerStmt (ext : Ext) (text : String) (l : Listener) : Listener :=
  if shouldSkip l then l
  else if l.pushOnlyAllowed then { l with err := some (.pushViolation text) }
  else if l.withDocker.isSome then { l with err := some .nestedWithDocker }
  else
    match goParse ext withDockerFlags l.stmtWords with
    | .error e => { l with err := some (.flagDecodeErr "WITH DOCKER" e) }
    | .ok fr =>
      if fr.positionals.length ≠ 0 then
        { l with err := some (.withDockerExtraArgs fr.positionals) }
      else
        match resolvePlatform ext (expandArgs ext (getS fr "platform") false) with
        | .error e => { l with err := some e }
        | .ok platform =>
          let composeFiles := (getSl fr "compose").map (fun cf => expandArgs ext cf false)
          let composeServices := (getSl fr "service").map (fun cs => expandArgs ext cs false)
          let loads := (getSl fr "load").map (fun ld => expandArgs ext ld true)
          let buildArgs := (getSl fr "build-arg").map (fun ba => expandArgs ext ba true)
          let pulls := (getSl fr "pull").map (fun p => expandArgs ext p false)
          let wd : WithDockerOpt :=
            { composeFiles := composeFiles
              composeServices := composeServices
              pulls := pulls.map (fun p => ⟨p, platform⟩)
              loads := loads.map (fun ls =>
                ⟨(parseLoad ls).2, (parseLoad ls).1, platform, buildArgs⟩) }
          { l with withDocker := some wd }

/-- `ExitEndStmt`: terminate a compound block. -/
def exitEndStmt (_text : String) (l : Listener) : Listener :=
  if shouldSkip l then l
  else if l.stmtWords.length ≠ 0 then { l with err := some .endExtraArgs }
  else if l.withDocker.isNone then { l with err := some .endWithoutWithDocker }
  else if l.withDockerRan = false then { l with err := some .noRunInWithDocker }
  else { l with withDocker := none, withDockerRan := false }

/-- `ExitAddStmt`: unsupported command. -/
def exitAddStmt (l : Listener) : Listener :=
  if shouldSkip l then l else { l with err := some .addNotSupported }

/-- `ExitStopsignalStmt`: unsupported command. -/
def exitStopsignalStmt (l : Listener) : Listener :=
  if shouldSkip l then l else { l with err := some .stopsignalNotSupported }

/-- `ExitOnbuildStmt`: unsupported command. -/
def exitOnbuildStmt (l : Listener) : Listener :=
  if shouldSkip l then l else { l with err := some .onbuildNotSupported }

/-- `ExitShellStmt`: unsupported command. -/
def exitShellStmt (l : Listener) : Listener :=
  if shouldSkip l then l else { l with err := some .shellNotSupported }

/-- `ExitGenericCommandStmt`: unmatched command. -/
def exitGenericCommandStmt (text : String) (l : Listener) : Listener :=
  if shouldSkip l then l else { l with err := some (.invalidCommand text) }

/-- `EnterEnvArgKey`: record the key and validate its shape. -/
def enterEnvArgKey (text : String) (l : Listener) : Listener :=
  if shouldSkip l then l
  else
    let l1 := { l with envArgKey := text }
    if envVarNameOk text then l1 else { l1 with err := some (.invalidEnvKey text) }

/-- `EnterEnvArgValue`. -/
def enterEnvArgValue (text : String) (l : Listener) : Listener :=
  if shouldSkip l then l else { l with envArgValue := text }

/-- `EnterLabelKey`. -/
def enterLabelKey (text : String) (l : Listener) : Listener :=
  if shouldSkip l then l else { l with labelKeys := l.labelKeys ++ [text] }

/-- `EnterLabelValue`. -/
def enterLabelValue (text : String) (l : Listener) : Listener :=
  if shouldSkip l then l else { l with labelValues := l.labelValues ++ [text] }

/-- `ExitStmtWordsMaybeJSON`: a successful JSON string-array decode of
the statement text overrides the collected words and sets exec mode. -/
def exitStmtWordsMaybeJSON (ext : Ext) (text : String) (l : Listener) : Listener :=
  if shouldSkip l then l
  else
    match ext.parseJSONArr text with
    | some words => { l with stmtWords := words, execMode := true }
    | none => l

/-- `EnterStmtWord`: accumulate one raw word, stripping line
continuations. -/
def enterStmtWord (text : String) (l : Listener) : Listener :=
  if shouldSkip l then l
  else { l with stmtWords := l.stmtWords ++ [replaceEscape text] }

--
-- The enter/exit event alphabet and the step function.

/-- One enter/exit callback from the tree-walk driver, with the node's
text where the listener reads it. -/
inductive Event where
  | enterTargetHeader (text : String)
  | enterStmts
  | exitStmts
  | enterStmt
  | exitFromStmt (text : String)
  | exitFromDockerfileStmt (text : String)
  | exitCopyStmt (text : String)
  | exitRunStmt (text : String)
  | exitSaveArtifact (text : String)
  | exitSaveImage (text : String)
  | exitBuildStmt (text : String)
  | exitWorkdirStmt (text : String)
  | exitUserStmt (text : String)
  | exitCmdStmt (text : String)
  | exitEntrypointStmt (text : String)
  | exitExposeStmt (text : String)
  | exitVolumeStmt (text : String)
  | exitEnvStmt (text : String)
  | exitArgStmt (text : String)
  | exitLabelStmt (text : String)
  | exitGitCloneStmt (text : String)
  | exitDockerLoadStmt (text : String)
  | exitDockerPullStmt (text : String)
  | exitHealthcheckStmt (text : String)
  | exitWithDockerStmt (text : String)
  | exitEndStmt (text : String)
  | exitAddStmt (text : String)
  | exitStopsignalStmt (text : String)
  | exitOnbuildStmt (text : String)
  | exitShellStmt (text : String)
  | exitGenericCommandStmt (text : String)
  | enterEnvArgKey (text : String)
  | enterEnvArgValue (text : String)
  | enterLabelKey (text : String)
  | enterLabelValue (text : String)
  | exitStmtWordsMaybeJSON (text : String)
  | enterStmtWord (text : String)
deriving DecidableEq

/-- Is this event the target-header callback? -/
def isTargetHeaderEv : Event → Bool
  | .enterTargetHeader _ => true
  | _ => false

/-- Dispatch one callback to its handler. -/
def step (ext : Ext) (e : Event) (l : Listener) : Listener :=
  match e with
  | .enterTargetHeader text => enterTargetHeader text l
  | .enterStmts => enterStmts l
  | .exitStmts => exitStmts l
  | .enterStmt => enterStmt l
  | .exitFromStmt text => exitFromStmt ext text l
  | .exitFromDockerfileStmt text => exitFromDockerfileStmt ext text l
  | .exitCopyStmt text => exitCopyStmt ext text l
  | .exitRunStmt text => exitRunStmt ext text l
  | .exitSaveArtifact text => exitSaveArtifact ext text l
  | .exitSaveImage text => exitSaveImage ext text l
  | .exitBuildStmt text => exitBuildStmt ext text l
  | .exitWorkdirStmt text => exitWorkdirStmt ext text l
  | .exitUserStmt text => exitUserStmt ext text l
  | .exitCmdStmt text => exitCmdStmt ext text l
  | .exitEntrypointStmt text => exitEntrypointStmt ext text l
  | .exitExposeStmt text => exitExposeStmt ext text l
  | .exitVolumeStmt text => exitVolumeStmt ext text l
  | .exitEnvStmt text => exitEnvStmt ext text l
  | .exitArgStmt text => exitArgStmt ext text l
  | .exitLabelStmt text => exitLabelStmt ext text l
  | .exitGitCloneStmt text => exitGitCloneStmt ext text l
  | .exitDockerLoadStmt _ => exitDockerLoadStmt l
  | .exitDockerPullStmt _ => exitDockerPullStmt l
  | .exitHealthcheckStmt text => exitHealthcheckStmt ext text l
  | .exitWithDockerStmt text => exitWithDockerStmt ext text l
  | .exitEndStmt text => exitEndStmt text l
  | .exitAddStmt _ => exitAddStmt l
  | .exitStopsignalStmt _ => exitStopsignalStmt l
  | .exitOnbuildStmt _ => exitOnbuildStmt l
  | .exitShellStmt _ => exitShellStmt l
  | .exitGenericCommandStmt text => exitGenericCommandStmt text l
  | .enterEnvArgKey text => enterEnvArgKey text l
  | .enterEnvArgValue text => enterEnvArgValue text l
  | .enterLabelKey text => enterLabelKey text l
  | .enterLabelValue text => enterLabelValue text l
  | .exitStmtWordsMaybeJSON text => exitStmtWordsMaybeJSON ext text l
  | .enterStmtWord text => enterStmtWord text l

/-- Run a sequence of callbacks in document order. -/
def runEvents (ext : Ext) (evs : List Event) (l : Listener) : Listener :=
  evs.foldl (fun st e => step ext e st) l

/-- A concrete instantiation of the external collaborators for running
the model on closed inputs: identity variable expansion, failing
platform/artifact/duration/int/JSON parses. -/
def extId : Ext :=
  { expandArgsC := fun s => s
    parsePlatform := fun _ => none
    parseArtifact := fun _ => none
    parseDuration := fun _ => none
    parseIntF := fun _ => none
    parseJSONArr := fun _ => none }

--
-- Shared lemmas about the step function.

theorem headerRest_skip (l : Listener) (h : shouldSkip l = true) :
    headerRest l = l := by
  simp [headerRest, h]

/-- Every non-header handler is a no-op under the skip predicate. -/
theorem step_skip (ext : Ext) (e : Event) (l : Listener)
    (hne : isTargetHeaderEv e = false) (h : shouldSkip l = true) :
    step ext e l = l := by
  cases e
  case enterTargetHeader text => simp [isTargetHeaderEv] at hne
  case enterStmts => simp [step, enterStmts, h]
  case exitStmts => simp [step, exitStmts, h]
  case enterStmt => simp [step, enterStmt, h]
  case exitFromStmt text => simp [step, exitFromStmt, h]
  case exitFromDockerfileStmt text => simp [step, exitFromDockerfileStmt, h]
  case exitCopyStmt text => simp [step, exitCopyStmt, h]
  case exitRunStmt text => simp [step, exitRunStmt, h]
  case exitSaveArtifact text => simp [step, exitSaveArtifact, h]
  case exitSaveImage text => simp [step, exitSaveImage, h]
  case exitBuildStmt text => simp [step, exitBuildStmt, h]
  case exitWorkdirStmt text => simp [step, exitWorkdirStmt, h]
  case exitUserStmt text => simp [step, exitUserStmt, h]
  case exitCmdStmt text => simp [step, exitCmdStmt, h]
  case exitEntrypointStmt text => simp [step, exitEntrypointStmt, h]
  case exitExposeStmt text => simp [step, exitExposeStmt, h]
  case exitVolumeStmt text => simp [step, exitVolumeStmt, h]
  case exitEnvStmt text => simp [step, exitEnvStmt, h]
  case exitArgStmt text => simp [step, exitArgStmt, h]
  case exitLabelStmt text => simp [step, exitLabelStmt, h]
  case exitGitCloneStmt text => simp [step, exitGitCloneStmt, h]
  case exitDockerLoadStmt text => simp [step, exitDockerLoadStmt, h]
  case exitDockerPullStmt text => simp [step, exitDockerPullStmt, h]
  case exitHealthcheckStmt text => simp [step, exitHealthcheckStmt, h]
  case exitWithDockerStmt text => simp [step, exitWithDockerStmt, h]
  case exitEndStmt text => simp [step, exitEndStmt, h]
  case exitAddStmt text => simp [step, exitAddStmt, h]
  case exitStopsignalStmt text => simp [step, exitStopsignalStmt, h]
  case exitOnbuildStmt text => simp [step, exitOnbuildStmt, h]
  case exitShellStmt text => simp [step, exitShellStmt, h]
  case exitGenericCommandStmt text => simp [step, exitGenericCommandStmt, h]
  case enterEnvArgKey text => simp [step, enterEnvArgKey, h]
  case enterEnvArgValue text => simp [step, enterEnvArgValue, h]
  case enterLabelKey text => simp [step, enterLabelKey, h]
  case enterLabelValue text => simp [step, enterLabelValue, h]
  case exitStmtWordsMaybeJSON text => simp [step, exitStmtWordsMaybeJSON, h]
  case enterStmtWord text => simp [step, enterStmtWord, h]

/-- A latched error skips every handler. -/
theorem shouldSkip_of_err (l : Listener) (h : l.err.isSome) :
    shouldSkip l = true := by
  simp [shouldSkip, h]

/-- With an error latched, a step leaves the call trace unchanged and an
error (possibly a different one, via the duplicate-target branch of the
header callback) still latched. -/
theorem step_err_latched (ext : Ext) (e : Event) (l : Listener)
    (h : l.err.isSome) :
    (step ext e l).calls = l.calls ∧ (step ext e l).err.isSome := by
  cases e
  case enterTargetHeader text =>
    simp only [step, enterTargetHeader]
    split
    · split
      · simp [h]
      · rw [headerRest_skip _ (by simp [shouldSkip, h])]
        simp [h]
    · rw [headerRest_skip _ (by simp [shouldSkip, h])]
      simp [h]
  all_goals rw [step_skip]
  all_goals first
    | exact ⟨rfl, h⟩
    | rfl
    | exact shouldSkip_of_err l h

/-- With an error latched, a whole run leaves the call trace unchanged
and an error latched. -/
theorem runEvents_err_latched (ext : Ext) (evs : List Event) (l : Listener)
    (h : l.err.isSome) :
    (runEvents ext evs l).calls = l.calls ∧ (runEvents ext evs l).err.isSome := by
  induction evs generalizing l with
  | nil => exact ⟨rfl, h⟩
  | cons e rest ih =>
    have h1 := step_err_latched ext e l h
    have h2 := ih (step ext e l) h1.2
    simp only [runEvents, List.foldl_cons] at *
    exact ⟨h2.1.trans h1.1, h2.2⟩

theorem headerRest_found (l : Listener) :
    (headerRest l).targetFound = l.targetFound := by
  unfold headerRest
  split
  · rfl
  · split <;> rfl

/-- The found flag is monotone: once set, no callback clears it. -/
theorem step_found_mono (ext : Ext) (e : Event) (l : Listener)
    (h : l.targetFound = true) : (step ext e l).targetFound = true := by
  cases e
  case enterTargetHeader text =>
    simp only [step, enterTargetHeader]
    (repeat' split) <;> simp_all [headerRest_found]
  case enterStmts =>
    simp only [step, enterStmts]; (repeat' split) <;> exact h
  case exitStmts =>
    simp only [step, exitStmts]; (repeat' split) <;> exact h
  case enterStmt =>
    simp only [step, enterStmt]; (repeat' split) <;> exact h
  case exitFromStmt text =>
    simp only [step, exitFromStmt]; (repeat' split) <;> exact h
  case exitFromDockerfileStmt text =>
    simp only [step, exitFromDockerfileStmt]; (repeat' split) <;> exact h
  case exitCopyStmt text =>
    simp only [step, exitCopyStmt]; (repeat' split) <;> exact h
  case exitRunStmt text =>
    simp only [step, exitRunStmt]; (repeat' split) <;> exact h
  case exitSaveArtifact text =>
    simp only [step, exitSaveArtifact]; (repeat' split) <;> exact h
  case exitSaveImage text =>
    simp only [step, exitSaveImage]; (repeat' split) <;> exact h
  case exitBuildStmt text =>
    simp only [step, exitBuildStmt]; (repeat' split) <;> exact h
  case exitWorkdirStmt text =>
    simp only [step, exitWorkdirStmt]; (repeat' split) <;> exact h
  case exitUserStmt text =>
    simp only [step, exitUserStmt]; (repeat' split) <;> exact h
  case exitCmdStmt text =>
    simp only [step, exitCmdStmt]; (repeat' split) <;> exact h
  case exitEntrypointStmt text =>
    simp only [step, exitEntrypointStmt]; (repeat' split) <;> exact h
  case exitExposeStmt text =>
    simp only [step, exitExposeStmt]; (repeat' split) <;> exact h
  case exitVolumeStmt text =>
    simp only [step, exitVolumeStmt]; (repeat' split) <;> exact h
  case exitEnvStmt text =>
    simp only [step, exitEnvStmt]; (repeat' split) <;> exact h
  case exitArgStmt text =>
    simp only [step, exitArgStmt]; (repeat' split) <;> exact h
  case exitLabelStmt text =>
    simp only [step, exitLabelStmt]; (repeat' split) <;> exact h
  case exitGitCloneStmt text =>
    simp only [step, exitGitCloneStmt]; (repeat' split) <;> exact h
  case exitDockerLoadStmt text =>
    simp only [step, exitDockerLoadStmt]; (repeat' split) <;> exact h
  case exitDockerPullStmt text =>
    simp only [step, exitDockerPullStmt]; (repeat' split) <;> exact h
  case exitHealthcheckStmt text =>
    simp only [step, exitHealthcheckStmt]; (repeat' split) <;> exact h
  case exitWithDockerStmt text =>
    simp only [step, exitWithDockerStmt]; (repeat' split) <;> exact h
  case exitEndStmt text =>
    simp only [step, exitEndStmt]; (repeat' split) <;> exact h
  case exitAddStmt text =>
    simp only [step, exitAddStmt]; (repeat' split) <;> exact h
  case exitStopsignalStmt text =>
    simp only [step, exitStopsignalStmt]; (repeat' split) <;> exact h
  case exitOnbuildStmt text =>
    simp only [step, exitOnbuildStmt]; (repeat' split) <;> exact h
  case exitShellStmt text =>
    simp only [step, exitShellStmt]; (repeat' split) <;> exact h
  case exitGenericCommandStmt text =>
    simp only [step, exitGenericCommandStmt]; (repeat' split) <;> exact h
  case enterEnvArgKey text =>
    simp only [step, enterEnvArgKey]; (repeat' split) <;> exact h
  case enterEnvArgValue text =>
    simp only [step, enterEnvArgValue]; (repeat' split) <;> exact h
  case enterLabelKey text =>
    simp only [step, enterLabelKey]; (repeat' split) <;> exact h
  case enterLabelValue text =>
    simp only [step, enterLabelValue]; (repeat' split) <;> exact h
  case exitStmtWordsMaybeJSON text =>
    simp only [step, exitStmtWordsMaybeJSON]; (repeat' split) <;> exact h
  case enterStmtWord text =>
    simp only [step, enterStmtWord]; (repeat' split) <;> exact h

/-- The found flag stays set across a whole run. -/
theorem runEvents_found_mono (ext : Ext) (evs : List Event) (l : Listener)
    (h : l.targetFound = true) : (runEvents ext evs l).targetFound = true := by
  induction evs generalizing l with
  | nil => exact h
  | cons e rest ih =>
    simp only [runEvents, List.foldl_cons]
    exact ih (step ext e l) (step_found_mono ext e l h)

theorem headerRest_calls_mono (l : Listener) :
    ∃ t, (headerRest l).calls = l.calls ++ t := by
  unfold headerRest
  split
  · exact ⟨[], by simp⟩
  · split
    · exact ⟨[], by simp⟩
    · exact ⟨_, rfl⟩

/-- Builder calls are only ever appended: the trace is monotone. -/
theorem step_calls_mono (ext : Ext) (e : Event) (l : Listener) :
    ∃ t, (step ext e l).calls = l.calls ++ t := by
  cases e
  case enterTargetHeader text =>
    simp only [step, enterTargetHeader]
    (repeat' split) <;>
      first
        | exact ⟨[], (List.append_nil _).symm⟩
        | exact headerRest_calls_mono _
  all_goals
    simp only [step, enterStmts, exitStmts, enterStmt,
      exitFromStmt, exitFromDockerfileStmt, exitCopyStmt, exitRunStmt,
      exitSaveArtifact, exitSaveImage, exitBuildStmt, exitWorkdirStmt,
      exitUserStmt, exitCmdStmt, exitEntrypointStmt, exitExposeStmt,
      exitVolumeStmt, exitEnvStmt, exitArgStmt, exitLabelStmt,
      exitGitCloneStmt, exitDockerLoadStmt, exitDockerPullStmt,
      exitHealthcheckStmt, exitWithDockerStmt, exitEndStmt, exitAddStmt,
      exitStopsignalStmt, exitOnbuildStmt, exitShellStmt,
      exitGenericCommandStmt, enterEnvArgKey, enterEnvArgValue,
      enterLabelKey, enterLabelValue, exitStmtWordsMaybeJSON,
      enterStmtWord]
  all_goals
    (repeat' split) <;>
      first
        | exact ⟨[], (List.append_nil _).symm⟩
        | exact ⟨_, rfl⟩

/-- Trace monotonicity for a whole run. -/
theorem runEvents_calls_mono (ext : Ext) (evs : List Event) (l : Listener) :
    ∃ t, (runEvents ext evs l).calls = l.calls ++ t := by
  induction evs generalizing l with
  | nil => exact ⟨[], by simp [runEvents]⟩
  | cons e rest ih =>
    simp only [runEvents, List.foldl_cons]
    obtain ⟨t1, h1⟩ := step_calls_mono ext e l
    obtain ⟨t2, h2⟩ := ih (step ext e l)
    exact ⟨t1 ++ t2, by simp [runEvents] at h2; simp [h2, h1]⟩

/-- Go's flag parser consumes no tokens when the first token is not a
flag token, so the positional residue is the whole token list. -/
theorem goParse_nonflag (ext : Ext) (defs : List FlagDef) (args : List String)
    (h : ∀ w, args.headD "" = w → isFlagTok w = false) :
    goParse ext defs args = .ok { FlagAcc.init with positionals := args } := by
  cases args with
  | nil => simp [goParse, goParseAux]
  | cons a rest =>
    have ha : isFlagTok a = false := h a rfl
    unfold goParse goParseAux
    rw [if_pos ha]

--
-- Claim theorems.

/-- C1, counterexample: the latched terminal error is NOT always
first-wins.  Walking target `foo` of a file whose target `foo` contains
`ADD` latches the unsupported-command error; a second `foo:` header later
in the file then REPLACES that latched error with the duplicate-target
error, because the duplicate check in the header callback runs before the
skip check. -/
theorem C1_counterexample :
    (runEvents extId [.enterTargetHeader "foo:", .enterStmt, .exitAddStmt "ADD x /x"]
      (newListener "foo")).err = some .addNotSupported
    ∧ (runEvents extId [.enterTargetHeader "foo:", .enterStmt, .exitAddStmt "ADD x /x",
        .enterTargetHeader "foo:"] (newListener "foo")).err
        = some (.declaredTwice "foo")
    ∧ IErr.addNotSupported ≠ IErr.declaredTwice "foo" := by
  refine ⟨by decide, by decide, by decide⟩

/-- C1, amended: once an error is latched, every later callback leaves
it unchanged, with one exception: a target-header event that declares
the requested execution target again while the found flag is set
overwrites the latched error with the duplicate-target error (so the
error stays latched, but its value can change on that one path). -/
theorem C1_amended (ext : Ext) (e : Event) (l : Listener) (er : IErr)
    (h : l.err = some er) :
    (step ext e l).err = some er
    ∨ (∃ text, e = .enterTargetHeader text ∧ trimColon text = l.executeTarget
        ∧ l.targetFound = true
        ∧ (step ext e l).err = some (.declaredTwice (trimColon text))) := by
  cases e
  case enterTargetHeader text =>
    simp only [step, enterTargetHeader]
    by_cases hc : trimColon text = l.executeTarget
    · rw [if_pos hc]
      by_cases hf : l.targetFound
      · rw [if_pos hf]
        exact Or.inr ⟨text, rfl, hc, hf, by simp [step, enterTargetHeader, hc, hf]⟩
      · rw [if_neg hf]
        rw [headerRest_skip _ (by simp [shouldSkip, h])]
        exact Or.inl h
    · rw [if_neg hc]
      rw [headerRest_skip _ (by simp [shouldSkip, h])]
      exact Or.inl h
  all_goals rw [step_skip]
  all_goals first
    | exact Or.inl h
    | rfl
    | exact shouldSkip_of_err l (by simp [h])

/-- A concrete state with a latched error, used as the C1 witness
input. -/
def latchedMe : Listener :=
  { newListener "me" with currentTarget := "me", targetFound := true, err := some IErr.addNotSupported }

/-- C1, witness for the amended theorem at a concrete latched state and
a non-header event. -/
theorem C1_amended_witness :
    latchedMe.err = some .addNotSupported
    ∧ ((step extId (.exitWorkdirStmt "WORKDIR /x") latchedMe).err = some .addNotSupported
       ∨ (∃ text, Event.exitWorkdirStmt "WORKDIR /x" = .enterTargetHeader text
            ∧ trimColon text = latchedMe.executeTarget ∧ latchedMe.targetFound = true
            ∧ (step extId (.exitWorkdirStmt "WORKDIR /x") latchedMe).err
                = some (.declaredTwice (trimColon text)))) :=
  ⟨rfl, C1_amended extId (.exitWorkdirStmt "WORKDIR /x") latchedMe .addNotSupported rfl⟩

/-- A concrete active listener state: walking target `t`, inside `t`. -/
def activeT : Listener :=
  { newListener "t" with currentTarget := "t", targetFound := true }

/-- `activeT` with the raw tokens of `RUN --push`. -/
def runPushT : Listener :=
  { activeT with stmtWords := ["--push"] }

/-- C2: while the skip predicate holds (a terminal error is latched or
the current target is not the requested one), every non-header callback
leaves the state entirely unchanged: no builder call, no error, no field
mutation. -/
theorem C2_skip_noop (ext : Ext) (e : Event) (l : Listener)
    (hne : isTargetHeaderEv e = false) (h : shouldSkip l = true) :
    step ext e l = l :=
  step_skip ext e l hne h

/-- C2, witness: a COPY with a syntax problem inside a non-selected
target is a strict no-op. -/
theorem C2_skip_noop_witness :
    isTargetHeaderEv (.exitCopyStmt "COPY") = false
    ∧ shouldSkip (newListener "me") = true
    ∧ step extId (.exitCopyStmt "COPY") (newListener "me") = newListener "me" :=
  ⟨by decide, by decide,
    C2_skip_noop extId (.exitCopyStmt "COPY") (newListener "me") (by decide) (by decide)⟩

/-- C4, counterexample: a `base:` (or `secrets:`) header does NOT always
fail.  When the requested execution target is some other target, the
header callback's skip check fires before the reserved-name check, so
the header is silently skipped and no error is latched. -/
theorem C4_counterexample :
    (step extId (.enterTargetHeader "base:") (newListener "foo")).err = none
    ∧ (step extId (.enterTargetHeader "secrets:") (newListener "foo")).err = none
    ∧ (step extId (.enterTargetHeader "base:") (newListener "foo")).calls = [] := by
  refine ⟨by decide, by decide, by decide⟩

/-- C4, amended: a target header named `base` or `secrets` causes an
immediate failure exactly when it names the requested execution target
(for `secrets` the reserved-name error on first declaration, for `base`
the duplicate error since the found flag starts true); when it names a
different target it is skipped, latching no error and making no builder
call. -/
theorem C4_amended (ext : Ext) (l : Listener) (text : String)
    (h1 : l.err = none)
    (hres : trimColon text = "base" ∨ trimColon text = "secrets") :
    (trimColon text = l.executeTarget →
      (step ext (.enterTargetHeader text) l).err.isSome)
    ∧ (trimColon text ≠ l.executeTarget →
      (step ext (.enterTargetHeader text) l).err = none
      ∧ (step ext (.enterTargetHeader text) l).calls = l.calls) := by
  constructor
  · intro hc
    simp only [step, enterTargetHeader, if_pos hc]
    by_cases hf : l.targetFound
    · simp [hf]
    · simp only [hf, if_neg, Bool.false_eq_true, if_false]
      unfold headerRest
      rw [if_neg (by simp [shouldSkip, h1, hc])]
      rw [if_pos (by simpa using hres)]
      simp
  · intro hc
    simp only [step, enterTargetHeader, if_neg hc]
    rw [headerRest_skip _ (by simp [shouldSkip, hc])]
    exact ⟨h1, rfl⟩

/-- C4, witness: requesting `foo`, the header `base:` is skipped; and
requesting `secrets`, the header `secrets:` fails at once. -/
theorem C4_amended_witness :
    ((newListener "foo").err = none ∧ (trimColon "base:" = "base" ∨ trimColon "base:" = "secrets")
      ∧ (trimColon "base:" ≠ (newListener "foo").executeTarget →
          (step extId (.enterTargetHeader "base:") (newListener "foo")).err = none
          ∧ (step extId (.enterTargetHeader "base:") (newListener "foo")).calls
              = (newListener "foo").calls))
    ∧ ((trimColon "secrets:" = (newListener "secrets").executeTarget →
          (step extId (.enterTargetHeader "secrets:") (newListener "secrets")).err.isSome)) :=
  ⟨⟨rfl, Or.inl (by decide),
      (C4_amended extId (newListener "foo") "base:" rfl (Or.inl (by decide))).2⟩,
    (C4_amended extId (newListener "secrets") "secrets:" rfl (Or.inr (by decide))).1⟩

/-- C10: when the requested execution target is `base`, the found flag
starts true, so the post-walk outcome is never the target-not-found
condition; with no latched error the walk reports success even if no
`base:` header appears; and an explicit `base:` header while executing
`base` fails as declared-twice (not as a reserved-name violation). -/
theorem C10_base_execution (ext : Ext) (evs : List Event) (t : String)
    (l : Listener) (text : String) :
    errResult (runEvents ext evs (newListener "base")) ≠ .targetNotFound t
    ∧ ((runEvents ext evs (newListener "base")).err = none →
        errResult (runEvents ext evs (newListener "base")) = .ok)
    ∧ (l.executeTarget = "base" → l.targetFound = true → trimColon text = "base" →
        (step ext (.enterTargetHeader text) l).err = some (.declaredTwice "base")) := by
  have hfound : (runEvents ext evs (newListener "base")).targetFound = true :=
    runEvents_found_mono ext evs _ (by decide)
  refine ⟨?_, ?_, ?_⟩
  · unfold errResult
    cases herr : (runEvents ext evs (newListener "base")).err with
    | some e => simp
    | none => simp [hfound]
  · intro herr
    unfold errResult
    rw [herr]
    simp [hfound]
  · intro hexec hfnd htrim
    simp [step, enterTargetHeader, htrim, hexec, hfnd]

/-- C10, witness at a concrete run and a concrete duplicate header. -/
theorem C10_base_execution_witness :
    errResult (runEvents extId [] (newListener "base")) ≠ .targetNotFound "base"
    ∧ ((runEvents extId [] (newListener "base")).err = none →
        errResult (runEvents extId [] (newListener "base")) = .ok)
    ∧ ((newListener "base").executeTarget = "base" → (newListener "base").targetFound = true →
        trimColon "base:" = "base" →
        (step extId (.enterTargetHeader "base:") (newListener "base")).err
          = some (.declaredTwice "base")) :=
  C10_base_execution extId [] "base" (newListener "base") "base:"

/-- C5: when the requested execution target's header is first
encountered (no error latched, not yet found) and the target is not
`base`, the builder calls made from that point on either start with the
synthesized `From "+base"` call with no platform and no build args —
issued by the header itself, before any of the target's statements run —
or, if the header itself fails (the reserved name `secrets`), no builder
call is ever made for the target. -/
theorem C5_implicit_from (ext : Ext) (l : Listener) (text : String) (rest : List Event)
    (h1 : l.err = none) (h2 : l.targetFound = false)
    (h3 : trimColon text = l.executeTarget) (h4 : l.executeTarget ≠ "base") :
    (∃ t, (runEvents ext (.enterTargetHeader text :: rest) l).calls
        = l.calls ++ .fromI "+base" none [] :: t)
    ∨ ((runEvents ext (.enterTargetHeader text :: rest) l).calls = l.calls
        ∧ (runEvents ext (.enterTargetHeader text :: rest) l).err.isSome) := by
  have hstep : runEvents ext (.enterTargetHeader text :: rest) l
      = runEvents ext rest (step ext (.enterTargetHeader text) l) := by
    simp [runEvents]
  have hhead : step ext (.enterTargetHeader text) l
      = headerRest { l with currentTarget := trimColon text, targetFound := true } := by
    simp only [step, enterTargetHeader, if_pos h3]
    rw [if_neg (by simp [h2])]
  have hskip : shouldSkip { l with currentTarget := trimColon text, targetFound := true } = false := by
    simp [shouldSkip, h1, h3]
  by_cases hs : l.executeTarget = "secrets"
  · right
    have hres : headerRest { l with currentTarget := trimColon text, targetFound := true }
        = { { l with currentTarget := trimColon text, targetFound := true } with err := some .reservedTargetName } := by
      unfold headerRest
      rw [if_neg (by simp [hskip]), if_pos (by simp [h3, hs])]
    have hlatch := runEvents_err_latched ext rest
      { { l with currentTarget := trimColon text, targetFound := true } with err := some .reservedTargetName } (by simp)
    rw [hstep, hhead, hres]
    exact ⟨hlatch.1, hlatch.2⟩
  · left
    have hres : headerRest { l with currentTarget := trimColon text, targetFound := true }
        = { { l with currentTarget := trimColon text, targetFound := true } with calls := l.calls ++ [.fromI "+base" none []] } := by
      unfold headerRest
      rw [if_neg (by simp [hskip]), if_neg (by simp [h3, h4, hs])]
    obtain ⟨t, ht⟩ := runEvents_calls_mono ext rest
      { { l with currentTarget := trimColon text, targetFound := true } with calls := l.calls ++ [.fromI "+base" none []] }
    refine ⟨t, ?_⟩
    rw [hstep, hhead, hres, ht]
    simp

/-- C5, witness: requesting target `app`, its header synthesizes the
implicit `FROM +base` call. -/
theorem C5_implicit_from_witness :
    (newListener "app").err = none ∧ (newListener "app").targetFound = false
    ∧ trimColon "app:" = (newListener "app").executeTarget
    ∧ (newListener "app").executeTarget ≠ "base"
    ∧ ((∃ t, (runEvents extId [.enterTargetHeader "app:"] (newListener "app")).calls
          = (newListener "app").calls ++ .fromI "+base" none [] :: t)
       ∨ ((runEvents extId [.enterTargetHeader "app:"] (newListener "app")).calls
            = (newListener "app").calls
          ∧ (runEvents extId [.enterTargetHeader "app:"] (newListener "app")).err.isSome)) :=
  ⟨rfl, by decide, by decide, by decide,
    C5_implicit_from extId (newListener "app") "app:" [] rfl (by decide) (by decide) (by decide)⟩

/-- C8: a SAVE IMAGE whose decode yields zero positional image names,
no cache-hint flag and no cache-import values is a strict no-op (no
builder call, no error, no state change at all); with the push flag and
zero image names it instead fails with the push-needs-names error. -/
theorem C8_saveImage_noop (ext : Ext) (l : Listener) (text : String)
    (h1 : l.err = none) (h2 : l.currentTarget = l.executeTarget)
    (h3 : l.pushOnlyAllowed = false) :
    (∀ fr, goParse ext saveImageFlags l.stmtWords = .ok fr → fr.positionals = [] →
        getB fr "cache-hint" = false → getSl fr "cache-from" = [] →
        getB fr "push" = false →
        step ext (.exitSaveImage text) l = l)
    ∧ (∀ fr, goParse ext saveImageFlags l.stmtWords = .ok fr → fr.positionals = [] →
        getB fr "push" = true →
        (step ext (.exitSaveImage text) l).err = some .saveImagePushNoArgs) := by
  have hsk : shouldSkip l = false := by simp [shouldSkip, h1, h2]
  constructor
  · intro fr hp hpos hch hcf hpush
    simp [step, exitSaveImage, hsk, hp, hpos, hch, hcf, hpush, h3]
  · intro fr hp hpos hpush
    simp [step, exitSaveImage, hsk, hp, hpos, hpush, h3]

/-- C8, witness: a literal `SAVE IMAGE` with no tokens in the active
target is a no-op. -/
theorem C8_saveImage_noop_witness :
    activeT.err = none
    ∧ (∀ fr, goParse extId saveImageFlags activeT.stmtWords = .ok fr →
        fr.positionals = [] → getB fr "cache-hint" = false → getSl fr "cache-from" = [] →
        getB fr "push" = false →
        step extId (.exitSaveImage "SAVE IMAGE") activeT = activeT) :=
  ⟨rfl, (C8_saveImage_noop extId activeT "SAVE IMAGE" rfl rfl rfl).1⟩

/-- C9, counterexample: a RUN whose positional residue after option
decoding is empty does NOT fail.  `RUN --push` has a nonempty raw token
list, so the raw-token arity check passes; decoding leaves an empty
residue, yet the handler makes a run builder call with an empty command
and latches no error. -/
theorem C9_counterexample :
    (step extId (.exitRunStmt "RUN --push") runPushT).err = none
    ∧ (step extId (.exitRunStmt "RUN --push") runPushT).calls
        = [.run [] [] [] false false false true true false] := by
  refine ⟨by decide, by decide⟩

/-- C9, amended: the not-enough-arguments check applies to the raw token
list before option decoding.  A RUN with no raw tokens at all fails with
the not-enough-arguments error and makes no builder call; a RUN whose
tokens decode to an empty positional residue (flags only) succeeds and
issues a run builder call with an empty command. -/
theorem C9_amended (ext : Ext) (l : Listener) (text : String)
    (h1 : l.err = none) (h2 : l.currentTarget = l.executeTarget) :
    (l.stmtWords = [] →
      (step ext (.exitRunStmt text) l).err = some .notEnoughRunArgs
      ∧ (step ext (.exitRunStmt text) l).calls = l.calls)
    ∧ (∀ fr, l.stmtWords ≠ [] → goParse ext runFlags l.stmtWords = .ok fr →
        fr.positionals = [] → l.pushOnlyAllowed = false → l.withDocker = none →
        (step ext (.exitRunStmt text) l).err = none
        ∧ (step ext (.exitRunStmt text) l).calls = l.calls
            ++ [.run [] ((getSl fr "mount").map (fun m => expandArgs ext m false))
                  ((getSl fr "secret").map (fun s => expandArgs ext s true))
                  (getB fr "privileged" || getB fr "with-docker")
                  (getB fr "entrypoint") (getB fr "with-docker") (!l.execMode)
                  (getB fr "push") (getB fr "ssh")]) := by
  have hsk : shouldSkip l = false := by simp [shouldSkip, h1, h2]
  constructor
  · intro hw
    simp [step, exitRunStmt, hsk, hw]
  · intro fr hw hp hpos hpu hwd
    have hlen : ¬ l.stmtWords.length < 1 := by
      cases hws : l.stmtWords with
      | nil => exact absurd hws hw
      | cons a rest => simp [hws]
    simp only [step, exitRunStmt, hsk, Bool.false_eq_true, if_false, hlen, hp, hpos, hpu, hwd]
    by_cases hpf : getB fr "push" = true <;>
      simp [hpf, hpos, h1]

/-- C9, witness for the amended theorem: `RUN --push` in the active
target. -/
theorem C9_amended_witness :
    runPushT.err = none
    ∧ (∀ fr, runPushT.stmtWords ≠ [] →
        goParse extId runFlags runPushT.stmtWords = .ok fr →
        fr.positionals = [] → runPushT.pushOnlyAllowed = false →
        runPushT.withDocker = none →
        (step extId (.exitRunStmt "RUN --push") runPushT).err = none
        ∧ (step extId (.exitRunStmt "RUN --push") runPushT).calls
            = runPushT.calls
              ++ [.run [] ((getSl fr "mount").map (fun m => expandArgs extId m false))
                    ((getSl fr "secret").map (fun s => expandArgs extId s true))
                    (getB fr "privileged" || getB fr "with-docker")
                    (getB fr "entrypoint") (getB fr "with-docker") (!runPushT.execMode)
                    (getB fr "push") (getB fr "ssh")]) :=
  ⟨rfl, (C9_amended extId runPushT "RUN --push" rfl rfl).2⟩

/-- A reachable trace for C3: walk target `t`, open WITH DOCKER, run
the inner RUN, then `SAVE IMAGE --push img` (which succeeds and sets
push-only mode), ending just before the END statement. -/
def pushThenEndEvs : List Event :=
  [.enterTargetHeader "t:", .enterStmts,
   .enterStmt, .exitWithDockerStmt "WITH DOCKER",
   .enterStmt, .enterStmtWord "echo", .enterStmtWord "hi", .exitRunStmt "RUN echo hi",
   .enterStmt, .enterStmtWord "--push", .enterStmtWord "img",
   .exitSaveImage "SAVE IMAGE --push img",
   .enterStmt]

/-- C3, counterexample: after a push-qualified SAVE IMAGE succeeds,
push-only mode is set, yet the next statement `END` — which carries no
push option — does NOT fail: the END handler has no push-only check.
The full walk (END then end of statements) finishes with no error. -/
theorem C3_counterexample :
    (runEvents extId pushThenEndEvs (newListener "t")).pushOnlyAllowed = true
    ∧ (runEvents extId pushThenEndEvs (newListener "t")).err = none
    ∧ (step extId (.exitEndStmt "END") (runEvents extId pushThenEndEvs (newListener "t"))).err
        = none
    ∧ (runEvents extId (pushThenEndEvs ++ [.exitEndStmt "END", .exitStmts])
        (newListener "t")).err = none := by
  refine ⟨by decide, by decide, by decide, by decide⟩

/-- C3, amended: while push-only mode is set in the active target, every
ordinary statement handler that is not push-qualified fails with the
push-violation error (FROM, FROM DOCKERFILE, COPY, SAVE ARTIFACT, BUILD,
WORKDIR, USER, CMD, ENTRYPOINT, EXPOSE, VOLUME, ENV, ARG, LABEL,
GIT CLONE, HEALTHCHECK, WITH DOCKER, and RUN/SAVE IMAGE when their
decoded push flag is false); the obsolete/unsupported commands fail with
their own errors instead of the push-violation error; END performs no
push check at all (a well-formed END still succeeds); and entering a new
target's statement list clears the restriction. -/
theorem C3_amended (ext : Ext) (l : Listener) (text : String)
    (hsk : shouldSkip l = false) (hp : l.pushOnlyAllowed = true) :
    (step ext (.exitFromStmt text) l).err = some (.pushViolation text)
    ∧ (step ext (.exitFromDockerfileStmt text) l).err = some (.pushViolation text)
    ∧ (step ext (.exitCopyStmt text) l).err = some (.pushViolation text)
    ∧ (step ext (.exitSaveArtifact text) l).err = some (.pushViolation text)
    ∧ (step ext (.exitBuildStmt text) l).err = some (.pushViolation text)
    ∧ (step ext (.exitWorkdirStmt text) l).err = some (.pushViolation text)
    ∧ (step ext (.exitUserStmt text) l).err = some (.pushViolation text)
    ∧ (step ext (.exitCmdStmt text) l).err = some (.pushViolation text)
    ∧ (step ext (.exitEntrypointStmt text) l).err = some (.pushViolation text)
    ∧ (step ext (.exitExposeStmt text) l).err = some (.pushViolation text)
    ∧ (step ext (.exitVolumeStmt text) l).err = some (.pushViolation text)
    ∧ (step ext (.exitEnvStmt text) l).err = some (.pushViolation text)
    ∧ (step ext (.exitArgStmt text) l).err = some (.pushViolation text)
    ∧ (step ext (.exitLabelStmt text) l).err = some (.pushViolation text)
    ∧ (step ext (.exitGitCloneStmt text) l).err = some (.pushViolation text)
    ∧ (step ext (.exitHealthcheckStmt text) l).err = some (.pushViolation text)
    ∧ (step ext (.exitWithDockerStmt text) l).err = some (.pushViolation text)
    ∧ (∀ fr, l.stmtWords ≠ [] → goParse ext runFlags l.stmtWords = .ok fr →
        getB fr "push" = false →
        (step ext (.exitRunStmt text) l).err = some (.pushViolation text))
    ∧ (∀ fr, goParse ext saveImageFlags l.stmtWords = .ok fr →
        getB fr "push" = false →
        (step ext (.exitSaveImage text) l).err = some (.pushViolation text))
    ∧ (step ext (.exitDockerLoadStmt text) l).err = some .dockerLoadObsolete
    ∧ (step ext (.exitAddStmt text) l).err = some .addNotSupported
    ∧ (step ext .enterStmts l).pushOnlyAllowed = false
    ∧ (l.stmtWords = [] → l.withDocker.isSome → l.withDockerRan = true →
        (step ext (.exitEndStmt text) l).err = none) := by
  have h1 : l.err = none := by
    cases herr : l.err with
    | none => rfl
    | some e => simp [shouldSkip, herr] at hsk
  refine ⟨?_, ?_, ?_, ?_, ?_, ?_, ?_, ?_, ?_, ?_, ?_, ?_, ?_, ?_, ?_, ?_, ?_, ?_, ?_, ?_, ?_, ?_, ?_⟩
  · simp [step, exitFromStmt, hsk, hp]
  · simp [step, exitFromDockerfileStmt, hsk, hp]
  · simp [step, exitCopyStmt, hsk, hp]
  · simp [step, exitSaveArtifact, hsk, hp]
  · simp [step, exitBuildStmt, hsk, hp]
  · simp [step, exitWorkdirStmt, hsk, hp]
  · simp [step, exitUserStmt, hsk, hp]
  · simp [step, exitCmdStmt, hsk, hp]
  · simp [step, exitEntrypointStmt, hsk, hp]
  · simp [step, exitExposeStmt, hsk, hp]
  · simp [step, exitVolumeStmt, hsk, hp]
  · simp [step, exitEnvStmt, hsk, hp]
  · simp [step, exitArgStmt, hsk, hp]
  · simp [step, exitLabelStmt, hsk, hp]
  · simp [step, exitGitCloneStmt, hsk, hp]
  · simp [step, exitHealthcheckStmt, hsk, hp]
  · simp [step, exitWithDockerStmt, hsk, hp]
  · intro fr hw hpr hpf
    have hlen : ¬ l.stmtWords.length < 1 := by
      cases hws : l.stmtWords with
      | nil => exact absurd hws hw
      | cons a rest => simp [hws]
    simp [step, exitRunStmt, hsk, hlen, hpr, hpf, hp]
  · intro fr hpr hpf
    simp [step, exitSaveImage, hsk, hpr, hpf, hp]
  · simp [step, exitDockerLoadStmt, hsk]
  · simp [step, exitAddStmt, hsk]
  · simp [step, enterStmts, hsk]
  · intro hw hwd hran
    simp [step, exitEndStmt, hsk, hw, hwd, hran, h1, Option.isNone_iff_eq_none]
    cases hd : l.withDocker with
    | none => rw [hd] at hwd; simp at hwd
    | some w => simp [hd, h1]

/-- C3, witness for the amended theorem: push-only mode active in the
walked target. -/
theorem C3_amended_witness :
    shouldSkip { activeT with pushOnlyAllowed := true } = false
    ∧ ({ activeT with pushOnlyAllowed := true } : Listener).pushOnlyAllowed = true
    ∧ (step extId (.exitWorkdirStmt "WORKDIR /x")
        { activeT with pushOnlyAllowed := true }).err
        = some (.pushViolation "WORKDIR /x") :=
  ⟨by decide, rfl,
    (C3_amended extId { activeT with pushOnlyAllowed := true } "WORKDIR /x"
      (by decide) rfl).2.2.2.2.2.1⟩

/-- The event sequence of a well-formed compound block in the active
target: WITH DOCKER (no arguments), one inner RUN, END. -/
def wellFormedBlockEvs : List Event :=
  [.enterStmt, .exitWithDockerStmt "WITH DOCKER",
   .enterStmt, .enterStmtWord "echo", .enterStmtWord "hi", .exitRunStmt "RUN echo hi",
   .enterStmt, .exitEndStmt "END"]

/-- C6: the WITH DOCKER block tracker's state machine.  From any active,
error-free, non-push state: opening while a block is open fails with the
nesting error; END while no block is open fails; END while the inner RUN
has not executed fails; a second RUN inside an open block fails; reaching
the end of the statement list with an open block fails; and the
well-formed sequence open, one inner RUN, END succeeds and returns the
tracker to idle (block descriptor and ran-flag both cleared, no error). -/
theorem C6_withDocker_tracker (ext : Ext) (l : Listener) (text : String)
    (wd : WithDockerOpt)
    (h1 : l.err = none) (h2 : l.currentTarget = l.executeTarget)
    (h3 : l.pushOnlyAllowed = false) :
    (step ext (.exitWithDockerStmt text) { l with withDocker := some wd }).err
      = some .nestedWithDocker
    ∧ (step ext (.exitEndStmt text) { l with withDocker := none, stmtWords := [] }).err
      = some .endWithoutWithDocker
    ∧ (step ext (.exitEndStmt text)
        { l with withDocker := some wd, withDockerRan := false, stmtWords := [] }).err
      = some .noRunInWithDocker
    ∧ (step ext (.exitRunStmt text)
        { l with withDocker := some wd, withDockerRan := true,
                 stmtWords := ["docker", "run", "x"] }).err
      = some .onlyOneRunInWithDocker
    ∧ (step ext .exitStmts { l with withDocker := some wd }).err = some .noMatchingEnd
    ∧ ((runEvents extId wellFormedBlockEvs
          { l with withDocker := none, withDockerRan := false }).err = none
       ∧ (runEvents extId wellFormedBlockEvs
            { l with withDocker := none, withDockerRan := false }).withDocker = none
       ∧ (runEvents extId wellFormedBlockEvs
            { l with withDocker := none, withDockerRan := false }).withDockerRan = false) := by
  refine ⟨?_, ?_, ?_, ?_, ?_, ?_⟩
  · simp [step, exitWithDockerStmt, shouldSkip, h1, h2, h3]
  · simp [step, exitEndStmt, shouldSkip, h1, h2]
  · simp [step, exitEndStmt, shouldSkip, h1, h2]
  · have hpr : goParse ext runFlags ["docker", "run", "x"]
        = .ok { FlagAcc.init with positionals := ["docker", "run", "x"] } :=
      goParse_nonflag ext runFlags _ (by intro w hw; rw [← hw]; decide)
    simp [step, exitRunStmt, shouldSkip, h1, h2, h3, hpr, getB, FlagAcc.init]
  · simp [step, exitStmts, shouldSkip, h1, h2]
  · have e1 : replaceEscape "echo" = "echo" := rfl
    have e2 : replaceEscape "hi" = "hi" := rfl
    have e3 : goParse extId withDockerFlags ([] : List String)
        = .ok { FlagAcc.init with positionals := [] } := rfl
    have e4 : goParse extId runFlags ["echo", "hi"]
        = .ok { FlagAcc.init with positionals := ["echo", "hi"] } := rfl
    have e5 : expandArgs extId "" false = "" := rfl
    have e6 : resolvePlatform extId "" = Except.ok none := rfl
    simp [wellFormedBlockEvs, runEvents, step, enterStmt, exitWithDockerStmt,
      exitRunStmt, exitEndStmt, enterStmtWord, shouldSkip, h1, h2, h3,
      e1, e2, e3, e4, e5, e6, getS, getSl, getB, FlagAcc.init]

/-- C6, witness: the tracker transitions applied in the active target
state. -/
theorem C6_withDocker_tracker_witness :
    activeT.err = none ∧ activeT.currentTarget = activeT.executeTarget
    ∧ activeT.pushOnlyAllowed = false
    ∧ (step extId (.exitEndStmt "END")
        { activeT with withDocker := none, stmtWords := [] }).err
        = some .endWithoutWithDocker :=
  ⟨rfl, rfl, rfl,
    (C6_withDocker_tracker extId activeT "END" {} rfl rfl rfl).2.1⟩

/-- C7: SAVE ARTIFACT positional arity.  With flag-free tokens, 0 or 3
positionals fail (no-arguments / invalid), more than 5 fail (too many),
4 or 5 fail unless the two tokens before the last are literally
`AS LOCAL`; 1, 2, and well-formed 4 or 5 are accepted and produce
exactly one save-artifact builder call; and the concrete input
`SAVE ARTIFACT ./out AS LOCAL ./local-out` produces exactly one call
with source `./out`, default destination `./`, and local destination
`./local-out`. -/
theorem C7_saveArtifact_arity (ext : Ext) (l : Listener) (text : String)
    (ws : List String)
    (h1 : l.err = none) (h2 : l.currentTarget = l.executeTarget)
    (h3 : l.pushOnlyAllowed = false)
    (hw : ∀ w, ws.headD "" = w → isFlagTok w = false) :
    (ws.length = 0 →
      (step ext (.exitSaveArtifact text) { l with stmtWords := ws }).err
        = some .saveArtifactNoArgs)
    ∧ (ws.length = 3 →
      (step ext (.exitSaveArtifact text) { l with stmtWords := ws }).err
        = some .saveArtifactInvalid)
    ∧ (5 < ws.length →
      (step ext (.exitSaveArtifact text) { l with stmtWords := ws }).err
        = some .saveArtifactTooMany)
    ∧ ((ws.length = 4 ∨ ws.length = 5) →
      joinSpace ((ws.drop (ws.length - 3)).take 2) ≠ "AS LOCAL" →
      (step ext (.exitSaveArtifact text) { l with stmtWords := ws }).err
        = some .saveArtifactInvalid)
    ∧ ((ws.length = 1 ∨ ws.length = 2) →
      (step ext (.exitSaveArtifact text) { l with stmtWords := ws }).err = none
      ∧ (step ext (.exitSaveArtifact text) { l with stmtWords := ws }).calls.length
          = l.calls.length + 1)
    ∧ ((ws.length = 4 ∨ ws.length = 5) →
      joinSpace ((ws.drop (ws.length - 3)).take 2) = "AS LOCAL" →
      (step ext (.exitSaveArtifact text) { l with stmtWords := ws }).err = none
      ∧ (step ext (.exitSaveArtifact text) { l with stmtWords := ws }).calls.length
          = l.calls.length + 1)
    ∧ (ws = ["./out", "AS", "LOCAL", "./local-out"] →
      (step extId (.exitSaveArtifact text) { l with stmtWords := ws }).err = none
      ∧ (step extId (.exitSaveArtifact text) { l with stmtWords := ws }).calls
          = l.calls ++ [.saveArtifact "./out" "./" "./local-out" false false false]) := by
  have hpr : goParse ext saveArtifactFlags ws
      = .ok { FlagAcc.init with positionals := ws } :=
    goParse_nonflag ext saveArtifactFlags ws hw
  refine ⟨?_, ?_, ?_, ?_, ?_, ?_, ?_⟩
  · intro hn
    simp [step, exitSaveArtifact, shouldSkip, h1, h2, h3, hpr, hn]
  · intro hn
    simp [step, exitSaveArtifact, shouldSkip, h1, h2, h3, hpr, hn]
  · intro hn
    have hne : ws ≠ [] := by
      intro he
      rw [he] at hn
      simp at hn
    simp [step, exitSaveArtifact, shouldSkip, h1, h2, h3, hpr, hn, hne]
  · intro hn hnj
    rcases hn with hn | hn <;>
      simp [hn] at hnj <;>
      simp [step, exitSaveArtifact, shouldSkip, h1, h2, h3, hpr, hn, hnj]
  · intro hn
    rcases hn with hn | hn <;>
      simp [step, exitSaveArtifact, shouldSkip, h1, h2, h3, hpr, hn, h1]
  · intro hn hj
    rcases hn with hn | hn <;>
      simp [hn] at hj <;>
      simp [step, exitSaveArtifact, shouldSkip, h1, h2, h3, hpr, hn, hj, h1]
  · intro hws
    have hq : goParse extId saveArtifactFlags ["./out", "AS", "LOCAL", "./local-out"]
        = .ok { FlagAcc.init with positionals := ["./out", "AS", "LOCAL", "./local-out"] } := rfl
    have hjs : joinSpace ["AS", "LOCAL"] = "AS LOCAL" := rfl
    have he1 : expandArgs extId "./out" false = "./out" := rfl
    have he2 : expandArgs extId "./" false = "./" := rfl
    have he3 : expandArgs extId "./local-out" false = "./local-out" := rfl
    simp [step, exitSaveArtifact, shouldSkip, h1, h2, h3, hq, hws, getB, FlagAcc.init,
      hjs, he1, he2, he3]

/-- C7, witness: a two-token SAVE ARTIFACT in the active target
succeeds with one builder call. -/
theorem C7_saveArtifact_arity_witness :
    activeT.err = none ∧ activeT.currentTarget = activeT.executeTarget
    ∧ activeT.pushOnlyAllowed = false
    ∧ (∀ w, (["a", "b"] : List String).headD "" = w → isFlagTok w = false)
    ∧ ((step extId (.exitSaveArtifact "SAVE ARTIFACT a b")
          { activeT with stmtWords := ["a", "b"] }).err = none
        ∧ (step extId (.exitSaveArtifact "SAVE ARTIFACT a b")
            { activeT with stmtWords := ["a", "b"] }).calls.length
            = activeT.calls.length + 1) :=
  ⟨rfl, rfl, rfl, by intro w hw; rw [← hw]; decide,
    (C7_saveArtifact_arity extId activeT "SAVE ARTIFACT a b" ["a", "b"] rfl rfl rfl
      (by intro w hw; rw [← hw]; decide)).2.2.2.2.1 (Or.inr rfl)⟩

end Earthly
